import Mathlib

/-!
Shallow embedding of `src/ros2_ws/src/cpp_pubsub/src/marker_publisher.cpp`.

The C++ node computes with `double` and `std::sin` / `M_PI`; the embedding
uses exact rationals `ℚ` and passes `sin : ℚ → ℚ` and `pi : ℚ` as explicit
parameters, so every definition stays computable and the formula structure of
the source is preserved verbatim.  Fallible vector accesses
(`std::vector::at`, which throws on out-of-range) are modelled with `Option`.
-/

/-- 3D point, mirroring `geometry_msgs::msg::Point` (and the
`std::vector<double>` triples the node uses for positions). -/
structure Point3 where
  x : ℚ
  y : ℚ
  z : ℚ
deriving DecidableEq

/-- RGBA color, mirroring `std_msgs::msg::ColorRGBA`; a default-constructed
message has all components zero. -/
structure RGBA where
  r : ℚ
  g : ℚ
  b : ℚ
  a : ℚ
deriving DecidableEq

/-- The marker geometry types used by the node (`visualization_msgs::msg::Marker`
constants); `ARROW` is the zero default of the message field. -/
inductive MarkerType where
  | ARROW
  | SPHERE
  | LINE_STRIP
  | TEXT_VIEW_FACING
deriving DecidableEq

/-- The fields of `visualization_msgs::msg::Marker` that the node writes or
reads.  Defaults are the zero values of a default-constructed ROS message. -/
structure Marker where
  frame_id : String := ""
  ns : String := ""
  id : ℤ := 0
  type : MarkerType := MarkerType.ARROW
  scale : Point3 := ⟨0, 0, 0⟩
  color : RGBA := ⟨0, 0, 0, 0⟩
  position : Point3 := ⟨0, 0, 0⟩
  points : List Point3 := []
  text : String := ""
deriving DecidableEq

/-- `generate_traj_marker` (lines 289–325): fills the line-strip marker and
pushes, for `count = 0, …, max_points`, the point
`origin + (x, y, z)` with `t = count / max_points * 2 * pi`,
`x = use_depth ? |t−pi|/pi*depth − depth/2 : 0`,
`y = t/(2*pi)*width − width/2`,
`z = (ph*height)*(sin(pa*(t+ps)) + sin(pb*(t+ps)) + sin(pc*(t+ps)))`. -/
def generate_traj_marker (sin : ℚ → ℚ) (pi : ℚ) (origin : Point3) (max_points : ℕ)
    (pa pb pc ps ph height width depth : ℚ) (use_depth : ℤ) : Marker :=
  { frame_id := "/panda_link0"
    ns := "marker_publisher"
    id := 2
    type := MarkerType.LINE_STRIP
    scale := ⟨0.015, 0, 0⟩
    color := ⟨0, 0, 1, 0.2⟩
    points := (List.range (max_points + 1)).map (fun (count : ℕ) =>
      let t : ℚ := (count : ℚ) / (max_points : ℚ) * 2 * pi
      let x : ℚ := if use_depth ≠ 0 then |t - pi| / pi * depth - depth / 2 else 0
      let y : ℚ := t / (2 * pi) * width - width / 2
      let z : ℚ := ph * height * (sin (pa * (t + ps)) + sin (pb * (t + ps)) + sin (pc * (t + ps)))
      ⟨x + origin.x, y + origin.y, z + origin.z⟩) }

/-- `generate_ref_ball` (lines 180–212): sphere of diameter `0.015 + d/20`,
green with alpha 0.35; positioned at the trajectory's first point when
`x == 0.0` (the `points.at(0)` access throws on an empty trajectory, modelled
as `none`), otherwise at `(x, y, z)` verbatim. -/
def generate_ref_ball (x y z d : ℚ) (traj_marker : Marker) : Option Marker :=
  let my_size : ℚ := 0.015 + d / 20
  let base : Marker :=
    { frame_id := "/panda_link0"
      ns := "marker_publisher"
      id := 0
      type := MarkerType.SPHERE
      scale := ⟨my_size, my_size, my_size⟩
      color := ⟨0, 1, 0, 0.35⟩ }
  if x = 0 then
    match traj_marker.points with
    | [] => none
    | p :: _ => some { base with position := p }
  else
    some { base with position := ⟨x, y, z⟩ }

/-- `generate_tcp_marker` (lines 216–239): fixed red sphere of diameter 0.015
at zero offset from the tcp link frame. -/
def generate_tcp_marker : Marker :=
  { frame_id := "/panda_hand_tcp"
    ns := "marker_publisher"
    id := 1
    type := MarkerType.SPHERE
    scale := ⟨0.015, 0.015, 0.015⟩
    color := ⟨1, 0, 0, 1⟩
    position := ⟨0, 0, 0⟩ }

/-- `generate_countdown` (lines 243–285): text marker; the `switch` sets
red for counts 5..3, red+green for 2..1, green for 0; the text is
`std::to_string(count)`, overridden to "Go!" at 0 and to "Stop!" (with red)
at −10; positioned at `center` with `z + 0.05`. -/
def generate_countdown (count : ℤ) (center : Point3) : Marker :=
  let r₀ : ℚ := if count = 5 ∨ count = 4 ∨ count = 3 ∨ count = 2 ∨ count = 1 then 1 else 0
  let g₀ : ℚ := if count = 2 ∨ count = 1 ∨ count = 0 then 1 else 0
  let text₀ : String := if count = 0 then "Go!" else toString count
  let text₁ : String := if count = -10 then "Stop!" else text₀
  let r₁ : ℚ := if count = -10 then 1 else r₀
  { frame_id := "/panda_link0"
    ns := "marker_publisher"
    id := 10
    type := MarkerType.TEXT_VIEW_FACING
    scale := ⟨0, 0, 0.2⟩
    color := ⟨r₁, g₀, 0, 1⟩
    position := ⟨center.x, center.y, center.z + 0.05⟩
    text := text₁ }

namespace MarkerPublisher

/-- Line 42: `std::vector<double> origin {0.5059, 0.0, 0.4346}`. -/
def origin : Point3 := ⟨0.5059, 0, 0.4346⟩

/-- Line 43: `const int max_points = 200`. -/
def max_points : ℕ := 200

/-- Line 49: `std::vector<double> bar_center {0.3, 0.0, 0.05}`. -/
def bar_center : Point3 := ⟨0.3, 0, 0.05⟩

/-- Line 53: `const int max_smoothing_time = 5`. -/
def max_smoothing_time : ℤ := 5

/-- Line 68: `double traj_height = 0.1`. -/
def traj_height : ℚ := 0.1

/-- Line 69: `double traj_width = 0.3`. -/
def traj_width : ℚ := 0.3

/-- Line 70: `double traj_depth = 0.1`. -/
def traj_depth : ℚ := 0.1

/-- The sine-curve coefficients (lines 62–66, zero-initialized members). -/
structure Coeffs where
  pa : ℤ
  pb : ℤ
  pc : ℤ
  ps : ℚ
  ph : ℚ
deriving DecidableEq

/-- The `switch (traj_id)` of lines 90–97: each defined id overwrites the
coefficients; any other id falls through, leaving the zero initializers. -/
def set_coeffs (pi : ℚ) (traj_id : ℤ) : Coeffs :=
  if traj_id = 0 then ⟨1, 1, 4, pi, 0.25⟩
  else if traj_id = 1 then ⟨2, 3, 4, 4 * pi / 3, 0.25⟩
  else if traj_id = 2 then ⟨1, 3, 4, pi, 0.25⟩
  else if traj_id = 3 then ⟨2, 2, 5, pi, 0.2⟩
  else if traj_id = 4 then ⟨2, 3, 5, 8 * pi / 5, 0.2⟩
  else if traj_id = 5 then ⟨2, 4, 5, pi, 0.2⟩
  else ⟨0, 0, 0, 0, 0⟩

/-- The node's mutable state read by the callbacks. -/
structure NodeState where
  origin : Point3
  ref_pos : Point3
  bar_center : Point3
  controller_seconds : ℤ
  countdown_count : ℤ
  traj_marker : Marker
deriving DecidableEq

/-- The constructor (lines 73–112): resolves the coefficients from `traj_id`
and generates the trajectory marker once; `ref_pos` starts at `(0,0,0)`,
`countdown_count` at 5, `controller_seconds` at 0. -/
def initState (sin : ℚ → ℚ) (pi : ℚ) (use_depth traj_id : ℤ) : NodeState :=
  let c := set_coeffs pi traj_id
  { origin := origin
    ref_pos := ⟨0, 0, 0⟩
    bar_center := bar_center
    controller_seconds := 0
    countdown_count := 5
    traj_marker := generate_traj_marker sin pi origin max_points
      (c.pa : ℚ) (c.pb : ℚ) (c.pc : ℚ) c.ps c.ph traj_height traj_width traj_depth use_depth }

/-- `ref_callback` (lines 142–147): overwrites `ref_pos` wholesale. -/
def ref_callback (st : NodeState) (p : Point3) : NodeState :=
  { st with ref_pos := p }

/-- `count_callback` (lines 149–154): stores the (already truncated-to-integer)
elapsed seconds; when nonzero, sets `countdown_count = max_smoothing_time − e`. -/
def count_callback (st : NodeState) (e : ℤ) : NodeState :=
  if e ≠ 0 then
    { st with controller_seconds := e, countdown_count := max_smoothing_time - e }
  else
    { st with controller_seconds := e }

/-- Lines 127–128 of `marker_callback`: `d` is 0.1 unless a reference with
nonzero x has arrived, in which case `d = ref.x − origin.x + 0.05`. -/
def ref_ball_d (ref_x origin_x : ℚ) : ℚ :=
  if ref_x ≠ 0 then ref_x - origin_x + 0.05 else 0.1

/-- `marker_callback` (lines 117–140): assembles, in order, the trajectory
marker, the tcp marker, the reference ball, and — when
`countdown_count >= 0 || countdown_count == -10` — the countdown text.
`none` models the `std::out_of_range` throw of the ball's fallback access. -/
def marker_callback (st : NodeState) : Option (List Marker) :=
  let d : ℚ := ref_ball_d st.ref_pos.x st.origin.x
  match generate_ref_ball st.ref_pos.x st.ref_pos.y st.ref_pos.z d st.traj_marker with
  | none => none
  | some ball =>
      let ms : List Marker := [st.traj_marker, generate_tcp_marker, ball]
      some (if 0 ≤ st.countdown_count ∨ st.countdown_count = -10
            then ms ++ [generate_countdown st.countdown_count st.bar_center]
            else ms)

/-- An inbound event: a `tcp_position` message or a `countdown` message. -/
inductive Event where
  | ref (p : Point3)
  | elapsed (e : ℤ)

/-- Dispatch of one inbound event to its subscription callback. -/
def handle (st : NodeState) (ev : Event) : NodeState :=
  match ev with
  | .ref p => ref_callback st p
  | .elapsed e => count_callback st e

end MarkerPublisher

/-! ### Concrete fixtures used by witnesses and counterexamples -/

/-- A marker with every field at its default zero value. -/
def blank_marker : Marker := {}

/-- A minimal line-strip trajectory marker holding a single point. -/
def demo_traj : Marker :=
  { type := MarkerType.LINE_STRIP, points := [⟨0.5059, -0.15, 0.4346⟩] }

/-- The reference ball produced for `demo_traj` while no reference has
arrived: fallback position at the trajectory's first point, size
`0.015 + 0.1/20 = 0.02`. -/
def fallback_ball : Marker :=
  { frame_id := "/panda_link0"
    ns := "marker_publisher"
    id := 0
    type := MarkerType.SPHERE
    scale := ⟨0.02, 0.02, 0.02⟩
    color := ⟨0, 1, 0, 0.35⟩
    position := ⟨0.5059, -0.15, 0.4346⟩ }

/-- A node state as after construction, but carrying `demo_traj`. -/
def base_state : MarkerPublisher.NodeState :=
  { origin := MarkerPublisher.origin
    ref_pos := ⟨0, 0, 0⟩
    bar_center := MarkerPublisher.bar_center
    controller_seconds := 0
    countdown_count := 5
    traj_marker := demo_traj }

/-! ### Theorems -/

/-- Claim C2: for every non-negative `max_points = N`, the trajectory
generation produces exactly `N + 1` points; in the session (`max_points = 200`
fixed in the constructor) that is 201 points. -/
theorem traj_length (sin : ℚ → ℚ) (pi : ℚ) (origin : Point3) (N : ℕ)
    (pa pb pc ps ph height width depth : ℚ) (use_depth : ℤ) (ud tid : ℤ) :
    (generate_traj_marker sin pi origin N pa pb pc ps ph height width depth use_depth).points.length
      = N + 1 ∧
    (MarkerPublisher.initState sin pi ud tid).traj_marker.points.length = 201 := by
  constructor <;>
    simp only [generate_traj_marker, MarkerPublisher.initState, MarkerPublisher.max_points,
      List.length_map, List.length_range]

/-- Claim C3: `count_callback` leaves `countdown_count` unchanged when the
elapsed-seconds value is 0 and sets it to `max_smoothing_time − e` otherwise;
feeding the sequence `[0,1,2,3,4,5]` to the freshly constructed node (initial
countdown 5) traces the countdown values `5 (unchanged), 4, 3, 2, 1, 0` —
the scanl below lists the initial state's value 5 first. -/
theorem countdown_update (st : MarkerPublisher.NodeState) (e : ℤ)
    (sin : ℚ → ℚ) (pi : ℚ) (ud tid : ℤ) :
    (MarkerPublisher.count_callback st e).countdown_count
      = (if e = 0 then st.countdown_count else MarkerPublisher.max_smoothing_time - e) ∧
    (List.scanl MarkerPublisher.count_callback
        (MarkerPublisher.initState sin pi ud tid) [0, 1, 2, 3, 4, 5]).map
        MarkerPublisher.NodeState.countdown_count
      = [5, 5, 4, 3, 2, 1, 0] := by
  constructor
  · by_cases he : e = 0 <;> simp [MarkerPublisher.count_callback, he]
  · simp [List.scanl, MarkerPublisher.count_callback, MarkerPublisher.initState,
      MarkerPublisher.max_smoothing_time]

/-- Claim C4: the countdown render mapping — counts 5, 4, 3 show the numeric
string in pure red; 2, 1 show it in red+green; 0 shows "Go!" in pure green;
−10 shows "Stop!" in pure red; and for every count the label sits at the
given center with `z + 0.05` (the node always passes `bar_center`). -/
theorem countdown_render (center : Point3) :
    ((generate_countdown 5 center).text = "5"
        ∧ (generate_countdown 5 center).color = ⟨1, 0, 0, 1⟩) ∧
    ((generate_countdown 4 center).text = "4"
        ∧ (generate_countdown 4 center).color = ⟨1, 0, 0, 1⟩) ∧
    ((generate_countdown 3 center).text = "3"
        ∧ (generate_countdown 3 center).color = ⟨1, 0, 0, 1⟩) ∧
    ((generate_countdown 2 center).text = "2"
        ∧ (generate_countdown 2 center).color = ⟨1, 1, 0, 1⟩) ∧
    ((generate_countdown 1 center).text = "1"
        ∧ (generate_countdown 1 center).color = ⟨1, 1, 0, 1⟩) ∧
    ((generate_countdown 0 center).text = "Go!"
        ∧ (generate_countdown 0 center).color = ⟨0, 1, 0, 1⟩) ∧
    ((generate_countdown (-10) center).text = "Stop!"
        ∧ (generate_countdown (-10) center).color = ⟨1, 0, 0, 1⟩) ∧
    (∀ count : ℤ, (generate_countdown count center).position
        = ⟨center.x, center.y, center.z + 0.05⟩) := by
  refine ⟨⟨rfl, rfl⟩, ⟨rfl, rfl⟩, ⟨rfl, rfl⟩, ⟨rfl, rfl⟩, ⟨rfl, rfl⟩, ⟨rfl, rfl⟩,
    ⟨rfl, rfl⟩, fun count => rfl⟩

/-- Claim C6: the reference-ball policy — with the `d` computed in
`marker_callback`, a reference with `x = 0` is rendered at the trajectory's
first point (independent of `y`, `z`) with the fixed size `0.015 + 0.1/20`;
otherwise it is rendered at `(x, y, z)` verbatim with size
`0.015 + (x − origin.x + 0.05)/20`. -/
theorem ref_ball_policy (x y z origin_x : ℚ) (traj : Marker) (p : Point3)
    (rest : List Point3) (hp : traj.points = p :: rest) :
    (generate_ref_ball x y z (MarkerPublisher.ref_ball_d x origin_x) traj).map
        (fun m => (m.position, m.scale.x))
      = some (if x = 0 then (p, 0.015 + 0.1 / 20)
              else (⟨x, y, z⟩, 0.015 + (x - origin_x + 0.05) / 20)) := by
  by_cases hx : x = 0
  · subst hx
    simp [generate_ref_ball, MarkerPublisher.ref_ball_d, hp]
  · simp [generate_ref_ball, MarkerPublisher.ref_ball_d, hx]

/-- Witness for C6 at `ref = (0, 5, 6)` and a one-point trajectory: the
fallback branch fires and ignores `y = 5`, `z = 6`. -/
theorem ref_ball_policy_witness :
    (demo_traj.points = (⟨0.5059, -0.15, 0.4346⟩ : Point3) :: []) ∧
    (generate_ref_ball 0 5 6 (MarkerPublisher.ref_ball_d 0 9) demo_traj).map
        (fun m => (m.position, m.scale.x))
      = some (if (0 : ℚ) = 0 then ((⟨0.5059, -0.15, 0.4346⟩ : Point3), 0.015 + 0.1 / 20)
              else (⟨0, 5, 6⟩, 0.015 + (0 - 9 + 0.05) / 20)) :=
  ⟨rfl, ref_ball_policy 0 5 6 9 demo_traj ⟨0.5059, -0.15, 0.4346⟩ [] rfl⟩

/-- Claim C7 is numerically wrong: at `ref = (0.55, 0, 0.45)` with
`origin.x = 0.5059` the computed size is exactly `0.019705`, whose distance
to the claimed approximation `0.01795` exceeds `1/1000` — so the size is not
approximately `0.01795` under any tolerance finer than that. -/
theorem ref_size_not_approx :
    (generate_ref_ball 0.55 0 0.45
        (MarkerPublisher.ref_ball_d 0.55 MarkerPublisher.origin.x) blank_marker).map
        (fun m => m.scale.x)
      = some 0.019705 ∧
    ¬ |(0.019705 : ℚ) - 0.01795| < 1 / 1000 := by
  constructor
  · norm_num [generate_ref_ball, MarkerPublisher.ref_ball_d, MarkerPublisher.origin]
  · norm_num [abs]

/-- Claim C7, amended: at `ref = (0.55, 0, 0.45)` with `origin.x = 0.5059`
the computed size equals `0.015 + (0.55 − 0.5059 + 0.05)/20`, which is
exactly `0.019705` (≈ 0.0197, not 0.01795). -/
theorem ref_size_value :
    (generate_ref_ball 0.55 0 0.45
        (MarkerPublisher.ref_ball_d 0.55 MarkerPublisher.origin.x) blank_marker).map
        (fun m => m.scale.x)
      = some (0.015 + (0.55 - 0.5059 + 0.05) / 20) ∧
    (0.015 + ((0.55 : ℚ) - 0.5059 + 0.05) / 20) = 0.019705 := by
  constructor
  · norm_num [generate_ref_ball, MarkerPublisher.ref_ball_d, MarkerPublisher.origin]
  · norm_num

/-- Claim C1: for every `count ≤ max_points`, the trajectory point at index
`count` is `origin + (x, y, z)` with `t = count/max_points * 2π`, `x` the
triangular depth profile (or 0 when depth variation is off), `y` the linear
width sweep, and `z` the three-harmonic sine synthesis. -/
theorem traj_point_formula (sin : ℚ → ℚ) (pi : ℚ) (origin : Point3) (N : ℕ)
    (pa pb pc ps ph height width depth : ℚ) (use_depth : ℤ) (count : ℕ)
    (hc : count ≤ N) :
    (generate_traj_marker sin pi origin N pa pb pc ps ph height width depth
        use_depth).points[count]?
      = some
          (let t : ℚ := (count : ℚ) / (N : ℚ) * 2 * pi
           ⟨origin.x + (if use_depth ≠ 0 then |t - pi| / pi * depth - depth / 2 else 0),
            origin.y + (t / (2 * pi) * width - width / 2),
            origin.z + ph * height
              * (sin (pa * (t + ps)) + sin (pb * (t + ps)) + sin (pc * (t + ps)))⟩) := by
  have h1 : count < N + 1 := Nat.lt_succ_of_le hc
  simp only [generate_traj_marker, List.getElem?_map, List.getElem?_range, h1,
    if_true, Option.map_some', Option.some.injEq, Point3.mk.injEq]
  refine ⟨by ring, by ring, by ring⟩

/-- Witness for C1: the middle point of a three-point trajectory with
`sin := id`, `pi := 3`, unit coefficients and depth enabled. -/
theorem traj_point_formula_witness :
    (1 : ℕ) ≤ 2 ∧
    (generate_traj_marker (fun q => q) 3 ⟨1, 2, 3⟩ 2 1 1 1 0 1 1 1 1 1).points[(1 : ℕ)]?
      = some ⟨1 / 2, 2, 12⟩ := by
  refine ⟨by norm_num, ?_⟩
  rw [traj_point_formula (fun q => q) 3 ⟨1, 2, 3⟩ 2 1 1 1 0 1 1 1 1 1 1 (by norm_num)]
  norm_num

/-- Claim C8: a `traj_id` outside `{0,…,5}` falls through the `switch`, so the
coefficients keep their zero initializers and every trajectory point of the
constructed node has `z = origin.z`; no error is reported (the constructor is
total). -/
theorem undefined_traj_id_flat (sin : ℚ → ℚ) (pi : ℚ) (ud tid : ℤ)
    (h : tid ∉ ([0, 1, 2, 3, 4, 5] : List ℤ)) :
    MarkerPublisher.set_coeffs pi tid = ⟨0, 0, 0, 0, 0⟩ ∧
    ∀ p ∈ (MarkerPublisher.initState sin pi ud tid).traj_marker.points,
      p.z = MarkerPublisher.origin.z := by
  simp only [List.mem_cons, List.not_mem_nil, or_false, not_or] at h
  obtain ⟨h0, h1, h2, h3, h4, h5⟩ := h
  have hc : MarkerPublisher.set_coeffs pi tid = ⟨0, 0, 0, 0, 0⟩ := by
    simp [MarkerPublisher.set_coeffs, h0, h1, h2, h3, h4, h5]
  refine ⟨hc, ?_⟩
  intro p hp
  simp only [MarkerPublisher.initState, generate_traj_marker, hc, List.mem_map,
    List.mem_range] at hp
  obtain ⟨c, -, rfl⟩ := hp
  simp

/-- Witness for C8 at `traj_id = 7`. -/
theorem undefined_traj_id_flat_witness :
    ((7 : ℤ) ∉ ([0, 1, 2, 3, 4, 5] : List ℤ)) ∧
    (MarkerPublisher.set_coeffs 1 7 = ⟨0, 0, 0, 0, 0⟩ ∧
      ∀ p ∈ (MarkerPublisher.initState (fun q => q) 1 0 7).traj_marker.points,
        p.z = MarkerPublisher.origin.z) :=
  ⟨by decide, undefined_traj_id_flat (fun q => q) 1 0 7 (by decide)⟩

/-- Any marker returned by `generate_ref_ball` is a sphere. -/
theorem generate_ref_ball_type (x y z d : ℚ) (t : Marker) (b : Marker)
    (h : generate_ref_ball x y z d t = some b) : b.type = MarkerType.SPHERE := by
  unfold generate_ref_ball at h
  split at h
  · cases ht : t.points with
    | nil => rw [ht] at h; cases h
    | cons p rest => rw [ht] at h; cases h; rfl
  · cases h; rfl

/-- `generate_ref_ball` succeeds whenever the trajectory has a point. -/
theorem generate_ref_ball_isSome (x y z d : ℚ) (t : Marker)
    (h : t.points ≠ []) : (generate_ref_ball x y z d t).isSome = true := by
  unfold generate_ref_ball
  split
  · cases ht : t.points with
    | nil => exact absurd ht h
    | cons p rest => simp
  · simp

/-- Claim C9: whenever a tick emits, the marker set is exactly the trajectory
marker first, the tcp marker second, the reference ball third, and — when
included — the countdown label last. -/
theorem marker_set_order (st : MarkerPublisher.NodeState) (ms : List Marker)
    (h : MarkerPublisher.marker_callback st = some ms) :
    ∃ ball,
      generate_ref_ball st.ref_pos.x st.ref_pos.y st.ref_pos.z
          (MarkerPublisher.ref_ball_d st.ref_pos.x st.origin.x) st.traj_marker
        = some ball ∧
      (ms = [st.traj_marker, generate_tcp_marker, ball] ∨
       ms = [st.traj_marker, generate_tcp_marker, ball,
             generate_countdown st.countdown_count st.bar_center]) := by
  simp only [MarkerPublisher.marker_callback] at h
  cases hgb : generate_ref_ball st.ref_pos.x st.ref_pos.y st.ref_pos.z
      (MarkerPublisher.ref_ball_d st.ref_pos.x st.origin.x) st.traj_marker with
  | none => simp only [hgb] at h; cases h
  | some ball =>
      simp only [hgb, Option.some.injEq] at h
      refine ⟨ball, rfl, ?_⟩
      subst h
      by_cases hcond : 0 ≤ st.countdown_count ∨ st.countdown_count = -10
      · right; simp [hcond]
      · left; simp [hcond]

/-- Witness for C9 on a concrete state: the emitted set has the four markers
in order. -/
theorem marker_set_order_witness :
    ∃ ball,
      generate_ref_ball base_state.ref_pos.x base_state.ref_pos.y base_state.ref_pos.z
          (MarkerPublisher.ref_ball_d base_state.ref_pos.x base_state.origin.x)
          base_state.traj_marker
        = some ball ∧
      ((MarkerPublisher.marker_callback base_state).getD []
          = [base_state.traj_marker, generate_tcp_marker, ball] ∨
       (MarkerPublisher.marker_callback base_state).getD []
          = [base_state.traj_marker, generate_tcp_marker, ball,
             generate_countdown base_state.countdown_count base_state.bar_center]) :=
  marker_set_order base_state ((MarkerPublisher.marker_callback base_state).getD []) rfl

/-- Claim C5, amended: the inclusion guard in `marker_callback` is
`countdown_count >= 0 || countdown_count == -10`, so a countdown label is in
the emitted set iff the count is non-negative or equals −10 — not iff the
count lies in `{5,4,3,2,1,0,−10}`.  Stated for states whose trajectory marker
is a line strip, as produced by the constructor. -/
theorem countdown_label_presence (st : MarkerPublisher.NodeState) (ms : List Marker)
    (htraj : st.traj_marker.type = MarkerType.LINE_STRIP)
    (h : MarkerPublisher.marker_callback st = some ms) :
    ((∃ m ∈ ms, m.type = MarkerType.TEXT_VIEW_FACING)
      ↔ (0 ≤ st.countdown_count ∨ st.countdown_count = -10)) := by
  simp only [MarkerPublisher.marker_callback] at h
  cases hgb : generate_ref_ball st.ref_pos.x st.ref_pos.y st.ref_pos.z
      (MarkerPublisher.ref_ball_d st.ref_pos.x st.origin.x) st.traj_marker with
  | none => simp only [hgb] at h; cases h
  | some ball =>
      simp only [hgb, Option.some.injEq] at h
      subst h
      have hball : ball.type = MarkerType.SPHERE :=
        generate_ref_ball_type _ _ _ _ _ _ hgb
      by_cases hcond : 0 ≤ st.countdown_count ∨ st.countdown_count = -10
      · simp only [hcond, if_true, iff_true]
        exact ⟨generate_countdown st.countdown_count st.bar_center, by simp, rfl⟩
      · simp only [hcond, if_false, iff_false]
        rintro ⟨m, hm, hTEXT⟩
        simp only [List.mem_cons, List.not_mem_nil, or_false] at hm
        rcases hm with rfl | rfl | rfl
        · rw [htraj] at hTEXT; cases hTEXT
        · cases hTEXT
        · rw [hball] at hTEXT; cases hTEXT

/-- Witness for C5's amended statement at the constructed default count 5. -/
theorem countdown_label_presence_witness :
    (∃ m ∈ (MarkerPublisher.marker_callback base_state).getD [],
        m.type = MarkerType.TEXT_VIEW_FACING)
      ↔ (0 ≤ base_state.countdown_count ∨ base_state.countdown_count = -10) :=
  countdown_label_presence base_state
    ((MarkerPublisher.marker_callback base_state).getD []) rfl rfl

/-- Counterexample to Claim C5 as stated: the countdown count 6 — reachable
via an elapsed-seconds message of −1 — is outside `{5,4,3,2,1,0,−10}`, yet
the tick still emits a countdown label (the guard accepts any count ≥ 0). -/
theorem countdown_label_at_six :
    (MarkerPublisher.count_callback base_state (-1)).countdown_count = 6 ∧
    ((6 : ℤ) ∉ ([5, 4, 3, 2, 1, 0, -10] : List ℤ)) ∧
    ∃ ms, MarkerPublisher.marker_callback (MarkerPublisher.count_callback base_state (-1))
        = some ms ∧
      ∃ m ∈ ms, m.type = MarkerType.TEXT_VIEW_FACING := by
  refine ⟨rfl, by decide,
    [demo_traj, generate_tcp_marker, fallback_ball,
      generate_countdown 6 MarkerPublisher.bar_center],
    ?_,
    generate_countdown 6 MarkerPublisher.bar_center, by simp, rfl⟩
  norm_num [MarkerPublisher.marker_callback, MarkerPublisher.count_callback,
    MarkerPublisher.ref_ball_d, MarkerPublisher.max_smoothing_time,
    generate_ref_ball, base_state, demo_traj, fallback_ball]

/-- `handle` never touches the trajectory marker. -/
theorem handle_traj (st : MarkerPublisher.NodeState) (ev : MarkerPublisher.Event) :
    (MarkerPublisher.handle st ev).traj_marker = st.traj_marker := by
  cases ev with
  | ref p => rfl
  | elapsed e =>
      simp only [MarkerPublisher.handle, MarkerPublisher.count_callback]
      split <;> rfl

/-- Folding any event list over `handle` preserves the trajectory marker. -/
theorem foldl_handle_traj (evs : List MarkerPublisher.Event)
    (st : MarkerPublisher.NodeState) :
    (evs.foldl MarkerPublisher.handle st).traj_marker = st.traj_marker := by
  induction evs generalizing st with
  | nil => rfl
  | cons ev evs ih => rw [List.foldl_cons, ih, handle_traj]

/-- Claim C10: from the constructed state, after any sequence of inbound
events, the tick's reference-ball fallback access is in bounds — the
trajectory generated at startup with `max_points = 200` has 201 points, so
`marker_callback` always succeeds. -/
theorem marker_callback_total (sin : ℚ → ℚ) (pi : ℚ) (ud tid : ℤ)
    (events : List MarkerPublisher.Event) :
    (MarkerPublisher.marker_callback
        (events.foldl MarkerPublisher.handle
          (MarkerPublisher.initState sin pi ud tid))).isSome = true := by
  set st := events.foldl MarkerPublisher.handle (MarkerPublisher.initState sin pi ud tid)
    with hst
  have htraj : st.traj_marker.points ≠ [] := by
    rw [hst, foldl_handle_traj]
    have hlen : (MarkerPublisher.initState sin pi ud tid).traj_marker.points.length = 201 := by
      simp only [MarkerPublisher.initState, generate_traj_marker, List.length_map,
        List.length_range, MarkerPublisher.max_points]
    intro hnil
    rw [hnil] at hlen
    cases hlen
  simp only [MarkerPublisher.marker_callback]
  cases hgb : generate_ref_ball st.ref_pos.x st.ref_pos.y st.ref_pos.z
      (MarkerPublisher.ref_ball_d st.ref_pos.x st.origin.x) st.traj_marker with
  | none =>
      have := generate_ref_ball_isSome st.ref_pos.x st.ref_pos.y st.ref_pos.z
        (MarkerPublisher.ref_ball_d st.ref_pos.x st.origin.x) st.traj_marker htraj
      rw [hgb] at this
      cases this
  | some ball => simp [hgb]
